import Mathlib

/-!
Shallow embedding of the `ax-first` typed-deserialization layer
(`src/deserializer.ts`, `src/sentimentObject-schema.ts`,
`src/deserializer-zod.ts`, `src/sentimentObject.ts`) together with the
JavaScript runtime primitives those files rely on (`JSON.parse`,
`typeof`, property access, `Object.assign`) and the behavior of the
zod schema declared by `sentimentObjectSchema`.
-/

/-- A JavaScript/JSON structural value: string, number, boolean, null,
array, or object (an ordered list of string-keyed fields, keys unique
in any value produced by `JSON.parse` or an object literal).
JSON numbers are modelled as integers; no claim involves fractional
numbers. -/
inductive Json where
  | str : String → Json
  | num : Int → Json
  | bool : Bool → Json
  | null : Json
  | arr : List Json → Json
  | obj : List (String × Json) → Json
deriving Repr

mutual

/-- Decidable structural equality for `Json`, written by hand because the
automatic `DecidableEq` derivation does not handle the nested `List`
occurrences. -/
def Json.decEq : (a b : Json) → Decidable (a = b)
  | .str a, .str b =>
      if h : a = b then .isTrue (congrArg Json.str h)
      else .isFalse (fun he => h (by injection he))
  | .num a, .num b =>
      if h : a = b then .isTrue (congrArg Json.num h)
      else .isFalse (fun he => h (by injection he))
  | .bool a, .bool b =>
      if h : a = b then .isTrue (congrArg Json.bool h)
      else .isFalse (fun he => h (by injection he))
  | .null, .null => .isTrue rfl
  | .arr a, .arr b =>
      match Json.decEqList a b with
      | .isTrue h => .isTrue (congrArg Json.arr h)
      | .isFalse h => .isFalse (fun he => h (by injection he))
  | .obj a, .obj b =>
      match Json.decEqFields a b with
      | .isTrue h => .isTrue (congrArg Json.obj h)
      | .isFalse h => .isFalse (fun he => h (by injection he))
  | .str _, .num _ => .isFalse (fun h => Json.noConfusion h)
  | .str _, .bool _ => .isFalse (fun h => Json.noConfusion h)
  | .str _, .null => .isFalse (fun h => Json.noConfusion h)
  | .str _, .arr _ => .isFalse (fun h => Json.noConfusion h)
  | .str _, .obj _ => .isFalse (fun h => Json.noConfusion h)
  | .num _, .str _ => .isFalse (fun h => Json.noConfusion h)
  | .num _, .bool _ => .isFalse (fun h => Json.noConfusion h)
  | .num _, .null => .isFalse (fun h => Json.noConfusion h)
  | .num _, .arr _ => .isFalse (fun h => Json.noConfusion h)
  | .num _, .obj _ => .isFalse (fun h => Json.noConfusion h)
  | .bool _, .str _ => .isFalse (fun h => Json.noConfusion h)
  | .bool _, .num _ => .isFalse (fun h => Json.noConfusion h)
  | .bool _, .null => .isFalse (fun h => Json.noConfusion h)
  | .bool _, .arr _ => .isFalse (fun h => Json.noConfusion h)
  | .bool _, .obj _ => .isFalse (fun h => Json.noConfusion h)
  | .null, .str _ => .isFalse (fun h => Json.noConfusion h)
  | .null, .num _ => .isFalse (fun h => Json.noConfusion h)
  | .null, .bool _ => .isFalse (fun h => Json.noConfusion h)
  | .null, .arr _ => .isFalse (fun h => Json.noConfusion h)
  | .null, .obj _ => .isFalse (fun h => Json.noConfusion h)
  | .arr _, .str _ => .isFalse (fun h => Json.noConfusion h)
  | .arr _, .num _ => .isFalse (fun h => Json.noConfusion h)
  | .arr _, .bool _ => .isFalse (fun h => Json.noConfusion h)
  | .arr _, .null => .isFalse (fun h => Json.noConfusion h)
  | .arr _, .obj _ => .isFalse (fun h => Json.noConfusion h)
  | .obj _, .str _ => .isFalse (fun h => Json.noConfusion h)
  | .obj _, .num _ => .isFalse (fun h => Json.noConfusion h)
  | .obj _, .bool _ => .isFalse (fun h => Json.noConfusion h)
  | .obj _, .null => .isFalse (fun h => Json.noConfusion h)
  | .obj _, .arr _ => .isFalse (fun h => Json.noConfusion h)

/-- Elementwise decidable equality on lists of `Json` values. -/
def Json.decEqList : (a b : List Json) → Decidable (a = b)
  | [], [] => .isTrue rfl
  | [], _ :: _ => .isFalse (fun h => List.noConfusion h)
  | _ :: _, [] => .isFalse (fun h => List.noConfusion h)
  | a :: as, b :: bs =>
      match Json.decEq a b, Json.decEqList as bs with
      | .isTrue h1, .isTrue h2 => .isTrue (by rw [h1, h2])
      | .isFalse h1, _ => .isFalse (fun he => h1 (by injection he))
      | _, .isFalse h2 => .isFalse (fun he => h2 (by injection he))

/-- Elementwise decidable equality on `Json` field lists. -/
def Json.decEqFields : (a b : List (String × Json)) → Decidable (a = b)
  | [], [] => .isTrue rfl
  | [], _ :: _ => .isFalse (fun h => List.noConfusion h)
  | _ :: _, [] => .isFalse (fun h => List.noConfusion h)
  | (ka, va) :: as, (kb, vb) :: bs =>
      if hk : ka = kb then
        match Json.decEq va vb, Json.decEqFields as bs with
        | .isTrue h1, .isTrue h2 => .isTrue (by rw [hk, h1, h2])
        | .isFalse h1, _ => .isFalse (fun he => by
            injection he with he1 he2
            exact h1 (congrArg Prod.snd he1))
        | _, .isFalse h2 => .isFalse (fun he => h2 (by injection he))
      else
        .isFalse (fun he => by
          injection he with he1 he2
          exact hk (congrArg Prod.fst he1))

end

instance : DecidableEq Json := Json.decEq

instance : BEq Json := instBEqOfDecidableEq

/-- The value of JavaScript `typeof` on a structural value; note that
`typeof null` and `typeof` of an array are both the string "object". -/
def jsTypeof : Json → String
  | .str _ => "string"
  | .num _ => "number"
  | .bool _ => "boolean"
  | .null => "object"
  | .arr _ => "object"
  | .obj _ => "object"

/-- JavaScript property read `v[key]`; `none` models `undefined`.
Objects yield the (first, and in well-formed objects only) binding of
the key; arrays yield the element at a numeric-string index and
`undefined` for other keys (the `length` property is never read by
this code); primitives and `null` have no readable data properties
relevant here. -/
def getProp : Json → String → Option Json
  | .obj fs, k => fs.lookup k
  | .arr xs, k =>
      if k.data ≠ [] ∧ k.data.all Char.isDigit then
        xs.get? (k.data.foldl (fun n c => n * 10 + (c.toNat - 48)) 0)
      else none
  | _, _ => none

/-- The JavaScript identity test `v === null`. -/
def Json.isNull : Json → Bool
  | .null => true
  | _ => false

/-- The own enumerable properties that `Object.assign(instance, v)`
copies from a source value `v`: an object's fields, an array's
index/value pairs, and nothing from `null`, numbers, or booleans.
(String sources would contribute index properties, but every code path
parses strings before they can reach `Object.assign`.) -/
def assignFields : Json → List (String × Json)
  | .obj fs => fs
  | .arr xs => xs.enum.map (fun p => (toString p.1, p.2))
  | _ => []

/-- The result of `Object.create(classType.prototype)` followed by
`Object.assign`: an instance of the target class carrying exactly the
copied fields.  Reading field `k` of the instance is `fields.lookup k`. -/
structure Instance where
  fields : List (String × Json)
deriving DecidableEq, Repr

/-- Field read on a deserialized instance. -/
def Instance.get (i : Instance) (k : String) : Option Json :=
  i.fields.lookup k

/-- An issue reported by the zod schema: the path to the offending
field and the human-readable message. -/
structure ZodIssue where
  path : List String
  message : String
deriving DecidableEq, Repr

/-- An error surfaced to the caller: a `SyntaxError` thrown by
`JSON.parse` (carrying its display text), a plain `new Error(msg)`,
or a `ZodError` aggregating the issues found in one validation pass. -/
inductive JsError where
  | parseError : String → JsError
  | error : String → JsError
  | zodError : List ZodIssue → JsError
deriving DecidableEq, Repr

/-- The text `${error}` produces for a caught error value. -/
def JsError.display : JsError → String
  | .parseError d => d
  | .error m => "Error: " ++ m
  | .zodError _ => "ZodError"

instance {ε α : Type} [DecidableEq ε] [DecidableEq α] : DecidableEq (Except ε α)
  | .ok a, .ok b =>
      if h : a = b then .isTrue (congrArg Except.ok h)
      else .isFalse (fun he => h (by injection he))
  | .error a, .error b =>
      if h : a = b then .isTrue (congrArg Except.error h)
      else .isFalse (fun he => h (by injection he))
  | .ok _, .error _ => .isFalse (fun h => Except.noConfusion h)
  | .error _, .ok _ => .isFalse (fun h => Except.noConfusion h)

/-! ### The JavaScript `JSON.parse` / `JSON.stringify` primitives -/

/-- JSON whitespace accepted between tokens. -/
def isJsonWs (c : Char) : Bool :=
  c == ' ' || c == '\t' || c == '\n' || c == '\r'

/-- Drop leading JSON whitespace. -/
def skipWs (cs : List Char) : List Char :=
  cs.dropWhile isJsonWs

/-- The character denoted by a backslash escape inside a JSON string
literal (`\uXXXX` escapes are not modelled; no claim exercises them). -/
def escapeChar : Char → Option Char
  | '"' => some '"'
  | '\\' => some '\\'
  | '/' => some '/'
  | 'b' => some (Char.ofNat 8)
  | 'f' => some (Char.ofNat 12)
  | 'n' => some '\n'
  | 'r' => some '\r'
  | 't' => some '\t'
  | _ => none

/-- Parse the body of a JSON string literal, positioned after the opening
quote; returns the decoded characters and the remaining input. -/
def parseStringBody : List Char → Except String (List Char × List Char)
  | [] => .error "Unterminated string in JSON"
  | '"' :: rest => .ok ([], rest)
  | '\\' :: rest =>
      match rest with
      | [] => .error "Unterminated string in JSON"
      | e :: rest2 =>
          match escapeChar e with
          | none => .error "Bad escaped character in JSON"
          | some c =>
              match parseStringBody rest2 with
              | .ok (s, r) => .ok (c :: s, r)
              | .error msg => .error msg
  | c :: rest =>
      match parseStringBody rest with
      | .ok (s, r) => .ok (c :: s, r)
      | .error msg => .error msg

/-- Numeric value of a list of decimal digit characters. -/
def digitsToNat (ds : List Char) : Nat :=
  ds.foldl (fun n c => n * 10 + (c.toNat - 48)) 0

/-- Parse a JSON number (modelled for the integer forms; fractional or
exponent parts, which no claim exercises, are left in the remaining
input and rejected by the surrounding parser as stray tokens). -/
def parseNumber (cs : List Char) : Except String (Json × List Char) :=
  let p := match cs with
    | '-' :: rest => (true, rest)
    | _ => (false, cs)
  let ds := p.2.takeWhile Char.isDigit
  let rest := p.2.dropWhile Char.isDigit
  if ds.isEmpty then .error "Unexpected token in JSON"
  else
    let n : Int := Int.ofNat (digitsToNat ds)
    .ok (Json.num (if p.1 then -n else n), rest)

mutual

/-- Parse one JSON value from the input, fuel-bounded. -/
def parseValue : Nat → List Char → Except String (Json × List Char)
  | 0, _ => .error "Maximum JSON nesting depth exceeded"
  | fuel + 1, cs =>
      match skipWs cs with
      | [] => .error "Unexpected end of JSON input"
      | c :: rest =>
          if c = '"' then
            match parseStringBody rest with
            | .ok (s, r) => .ok (Json.str (String.mk s), r)
            | .error e => .error e
          else if c = '{' then
            match skipWs rest with
            | '}' :: r => .ok (Json.obj [], r)
            | cs2 => match parseObjFields fuel cs2 with
                | .ok (fs, r) => .ok (Json.obj fs, r)
                | .error e => .error e
          else if c = '[' then
            match skipWs rest with
            | ']' :: r => .ok (Json.arr [], r)
            | cs2 => match parseArrElems fuel cs2 with
                | .ok (xs, r) => .ok (Json.arr xs, r)
                | .error e => .error e
          else if List.isPrefixOf "true".data (c :: rest) then
            .ok (Json.bool true, (c :: rest).drop 4)
          else if List.isPrefixOf "false".data (c :: rest) then
            .ok (Json.bool false, (c :: rest).drop 5)
          else if List.isPrefixOf "null".data (c :: rest) then
            .ok (Json.null, (c :: rest).drop 4)
          else if c = '-' || c.isDigit then
            parseNumber (c :: rest)
          else
            .error "Unexpected token in JSON"

/-- Parse a non-empty run of `"key": value` members, fuel-bounded;
stops after the closing brace. -/
def parseObjFields : Nat → List Char → Except String (List (String × Json) × List Char)
  | 0, _ => .error "Maximum JSON nesting depth exceeded"
  | fuel + 1, cs =>
      match skipWs cs with
      | '"' :: rest =>
          match parseStringBody rest with
          | .error e => .error e
          | .ok (k, r1) =>
              match skipWs r1 with
              | ':' :: r2 =>
                  match parseValue fuel r2 with
                  | .error e => .error e
                  | .ok (v, r3) =>
                      match skipWs r3 with
                      | ',' :: r4 =>
                          match parseObjFields fuel r4 with
                          | .ok (fs, r5) => .ok ((String.mk k, v) :: fs, r5)
                          | .error e => .error e
                      | '}' :: r4 => .ok ([(String.mk k, v)], r4)
                      | _ => .error "Expected comma or closing brace in JSON object"
              | _ => .error "Expected colon in JSON object"
      | _ => .error "Expected string key in JSON object"

/-- Parse a non-empty run of array elements, fuel-bounded; stops after
the closing bracket. -/
def parseArrElems : Nat → List Char → Except String (List Json × List Char)
  | 0, _ => .error "Maximum JSON nesting depth exceeded"
  | fuel + 1, cs =>
      match parseValue fuel cs with
      | .error e => .error e
      | .ok (v, r1) =>
          match skipWs r1 with
          | ',' :: r2 =>
              match parseArrElems fuel r2 with
              | .ok (xs, r3) => .ok (v :: xs, r3)
              | .error e => .error e
          | ']' :: r2 => .ok ([v], r2)
          | _ => .error "Expected comma or closing bracket in JSON array"

end

/-- The `JSON.parse` builtin: decodes JSON text or fails with the text
of the `SyntaxError` it would throw. -/
def jsonParse (s : String) : Except String Json :=
  match parseValue (s.length + 16) s.data with
  | .error e => .error e
  | .ok (v, rest) =>
      if (skipWs rest).isEmpty then .ok v
      else .error "Unexpected non-whitespace character after JSON"

/-- Escape one character for a JSON string literal. -/
def encodeStringChar (c : Char) : List Char :=
  if c = '"' then ['\\', '"']
  else if c = '\\' then ['\\', '\\']
  else if c = '\n' then ['\\', 'n']
  else if c = '\t' then ['\\', 't']
  else if c = '\r' then ['\\', 'r']
  else [c]

/-- Encode a string as a JSON string literal. -/
def encodeString (s : String) : String :=
  "\"" ++ String.mk (s.data.map encodeStringChar).flatten ++ "\""

mutual

/-- The `JSON.stringify` builtin (compact form, no spacing), used to
state the text-encoding round-trip property. -/
def jsonEncode : Json → String
  | .str s => encodeString s
  | .num n => toString n
  | .bool b => if b then "true" else "false"
  | .null => "null"
  | .arr xs => "[" ++ String.intercalate "," (jsonEncodeList xs) ++ "]"
  | .obj fs => "\x7b" ++ String.intercalate "," (jsonEncodeFields fs) ++ "\x7d"

/-- Encodings of a list of array elements. -/
def jsonEncodeList : List Json → List String
  | [] => []
  | x :: xs => jsonEncode x :: jsonEncodeList xs

/-- Encodings of a list of object members. -/
def jsonEncodeFields : List (String × Json) → List String
  | [] => []
  | (k, v) :: fs => (encodeString k ++ ":" ++ jsonEncode v) :: jsonEncodeFields fs

end

/-! ### The deserialization strategies of `src/deserializer.ts`,
`src/sentimentObject-schema.ts` and `src/deserializer-zod.ts` -/

/-- The shared `typeof jsonObject === "string" ? JSON.parse(jsonObject)
: jsonObject` step that opens every entry point; a `SyntaxError` thrown
by `JSON.parse` displays as "SyntaxError: " followed by its message. -/
def parseIfString : Json → Except JsError Json
  | .str s =>
      match jsonParse s with
      | .ok v => .ok v
      | .error d => .error (.parseError ("SyntaxError: " ++ d))
  | v => .ok v

/-- `deserialize` from `src/deserializer.ts`: parse a string input if
needed, then `Object.create` + `Object.assign` the parsed value onto a
fresh instance, with no validation. -/
def deserialize (jsonObject : Json) : Except JsError Instance :=
  match parseIfString jsonObject with
  | .error e => .error e
  | .ok obj => .ok ⟨assignFields obj⟩

/-- `deserializeArray` from `src/deserializer.ts`: parse a string input
if needed, reject non-arrays with "Input must be an array", then map
`deserialize` over the elements (the first element failure aborts). -/
def deserializeArray (jsonArray : Json) : Except JsError (List Instance) :=
  match parseIfString jsonArray with
  | .error e => .error e
  | .ok arr =>
      match arr with
      | .arr items => items.mapM deserialize
      | _ => .error (.error "Input must be an array")

namespace SentimentObjectValidator

/-- The `validSentiments` set of `SentimentObjectValidator`, in
insertion order. -/
def validSentiments : List String := ["positive", "negative", "neutral"]

/-- The `validUrgencies` set of `SentimentObjectValidator`, in
insertion order. -/
def validUrgencies : List String := ["high", "medium", "low"]

/-- `SentimentObjectValidator.validate` from
`src/sentimentObject-schema.ts`: rejects values whose `typeof` is not
"object" and `null`; then checks `sentiment` (string, then domain) and
`urgency` (string, then domain) in that order, throwing on the first
violation; on success returns the two-field object
`\x7b sentiment, urgency \x7d`. -/
def validate (obj : Json) : Except JsError Json :=
  if jsTypeof obj != "object" || obj.isNull then
    .error (.error "Input must be an object")
  else
    match getProp obj "sentiment" with
    | some (Json.str s) =>
        if !(validSentiments.contains s) then
          .error (.error ("sentiment must be one of: " ++ String.intercalate ", " validSentiments))
        else
          match getProp obj "urgency" with
          | some (Json.str u) =>
              if !(validUrgencies.contains u) then
                .error (.error ("urgency must be one of: " ++ String.intercalate ", " validUrgencies))
              else
                .ok (Json.obj [("sentiment", Json.str s), ("urgency", Json.str u)])
          | _ => .error (.error "urgency must be a string")
    | _ => .error (.error "sentiment must be a string")

end SentimentObjectValidator

/-- `deserializeWithValidation` from `src/sentimentObject-schema.ts`,
instantiated (as in the repository) with `SentimentObjectValidator`:
parse a string input if needed, validate, then assign the *validated*
object's fields onto a fresh instance. -/
def deserializeWithValidation (jsonObject : Json) : Except JsError Instance :=
  match parseIfString jsonObject with
  | .error e => .error e
  | .ok obj =>
      match SentimentObjectValidator.validate obj with
      | .error e => .error e
      | .ok validatedObj => .ok ⟨assignFields validatedObj⟩

/-- The name zod reports for the parsed type of a value inside its
default "Expected object, received …" message. -/
def zodTypeName : Json → String
  | .str _ => "string"
  | .num _ => "number"
  | .bool _ => "boolean"
  | .null => "null"
  | .arr _ => "array"
  | .obj _ => "object"

namespace sentimentObjectSchema

/-- The enumeration of the schema's `sentiment` field. -/
def sentimentValues : List String := ["positive", "negative", "neutral"]

/-- The enumeration of the schema's `urgency` field. -/
def urgencyValues : List String := ["high", "medium", "low"]

/-- The custom message attached to the schema's `sentiment` field. -/
def sentimentMessage : String :=
  "sentiment must be \x27positive\x27, \x27negative\x27, or \x27neutral\x27"

/-- The custom message attached to the schema's `urgency` field. -/
def urgencyMessage : String :=
  "urgency must be \x27high\x27, \x27medium\x27, or \x27low\x27"

/-- Validation of one `z.enum(values, \x7b message \x7d)` field: a
missing value, a non-string value, and an out-of-domain string all
produce one issue at the field's path carrying the custom message. -/
def checkEnum (field : String) (allowed : List String) (msg : String) :
    Option Json → Except ZodIssue String
  | some (Json.str s) =>
      if allowed.contains s then .ok s else .error ⟨[field], msg⟩
  | _ => .error ⟨[field], msg⟩

/-- `sentimentObjectSchema.safeParse`: a non-object input yields one
root issue; an object input has both declared fields checked, the
issues aggregated in declaration order, and on success only the
declared fields are kept (unknown keys are stripped). -/
def safeParse (input : Json) : Except (List ZodIssue) Json :=
  match input with
  | Json.obj _ =>
      match checkEnum "sentiment" sentimentValues sentimentMessage (getProp input "sentiment"),
            checkEnum "urgency" urgencyValues urgencyMessage (getProp input "urgency") with
      | .ok s, .ok u => .ok (Json.obj [("sentiment", Json.str s), ("urgency", Json.str u)])
      | .error i1, .ok _ => .error [i1]
      | .ok _, .error i2 => .error [i2]
      | .error i1, .error i2 => .error [i1, i2]
  | _ => .error [⟨[], "Expected object, received " ++ zodTypeName input⟩]

/-- `sentimentObjectSchema.parse`: like `safeParse` but throwing the
aggregate `ZodError`. -/
def parse (input : Json) : Except JsError Json :=
  match safeParse input with
  | .ok v => .ok v
  | .error issues => .error (.zodError issues)

end sentimentObjectSchema

/-- `deserializeWithZod` from `src/deserializer-zod.ts`, instantiated
(as in the repository) with `sentimentObjectSchema`: parse a string
input if needed, `schema.parse`, then assign the validated object's
fields onto a fresh instance. -/
def deserializeWithZod (jsonObject : Json) : Except JsError Instance :=
  match parseIfString jsonObject with
  | .error e => .error e
  | .ok obj =>
      match sentimentObjectSchema.parse obj with
      | .error e => .error e
      | .ok validatedObj => .ok ⟨assignFields validatedObj⟩

/-- `deserializeArrayWithZod` from `src/deserializer-zod.ts`: parse a
string input if needed, reject non-arrays with "Input must be an
array", then map `deserializeWithZod` over the elements. -/
def deserializeArrayWithZod (jsonArray : Json) : Except JsError (List Instance) :=
  match parseIfString jsonArray with
  | .error e => .error e
  | .ok arr =>
      match arr with
      | .arr items => items.mapM deserializeWithZod
      | _ => .error (.error "Input must be an array")

/-- The discriminated result of `deserializeWithZodSafe`:
`\x7b success: true; data \x7d` or `\x7b success: false; error \x7d`. -/
inductive SafeResult where
  | success : Instance → SafeResult
  | failure : List ZodIssue → SafeResult
deriving DecidableEq, Repr

/-- `deserializeWithZodSafe` from `src/deserializer-zod.ts`: inside a
`try`, parse a string input if needed, `schema.safeParse`, and return
the discriminated outcome; only `JSON.parse` can throw inside the
`try`, and the `catch` rethrows it as
`Error("Failed to parse JSON: " + error)`. -/
def deserializeWithZodSafe (jsonObject : Json) : Except JsError SafeResult :=
  match parseIfString jsonObject with
  | .error e => .error (.error ("Failed to parse JSON: " ++ e.display))
  | .ok obj =>
      match sentimentObjectSchema.safeParse obj with
      | .error issues => .ok (.failure issues)
      | .ok data => .ok (.success ⟨assignFields data⟩)

/-- A mapping that contains exactly the recognized fields `sentiment`
and `urgency` (in either order) with values in their declared
enumerations. -/
def validMapping (m : Json) : Prop :=
  ∃ s u, s ∈ sentimentObjectSchema.sentimentValues ∧
    u ∈ sentimentObjectSchema.urgencyValues ∧
    (m = Json.obj [("sentiment", Json.str s), ("urgency", Json.str u)] ∨
     m = Json.obj [("urgency", Json.str u), ("sentiment", Json.str s)])

/-! ### Claims -/

/-- C1: for every input mapping containing exactly the fields
`sentiment` and `urgency` with values in their declared enumerations,
each strategy's single-object form (`deserialize`,
`deserializeWithValidation` with `SentimentObjectValidator`,
`deserializeWithZod` with `sentimentObjectSchema`) returns an instance
whose `sentiment` and `urgency` fields equal the input's values. -/
theorem claim_C1 (s u : String)
    (hs : s ∈ sentimentObjectSchema.sentimentValues)
    (hu : u ∈ sentimentObjectSchema.urgencyValues)
    (m : Json)
    (hm : m = Json.obj [("sentiment", Json.str s), ("urgency", Json.str u)] ∨
          m = Json.obj [("urgency", Json.str u), ("sentiment", Json.str s)]) :
    (∃ i, deserialize m = Except.ok i ∧
      i.get "sentiment" = some (Json.str s) ∧ i.get "urgency" = some (Json.str u)) ∧
    (∃ i, deserializeWithValidation m = Except.ok i ∧
      i.get "sentiment" = some (Json.str s) ∧ i.get "urgency" = some (Json.str u)) ∧
    (∃ i, deserializeWithZod m = Except.ok i ∧
      i.get "sentiment" = some (Json.str s) ∧ i.get "urgency" = some (Json.str u)) := by
  simp only [sentimentObjectSchema.sentimentValues, sentimentObjectSchema.urgencyValues,
    List.mem_cons, List.not_mem_nil, or_false] at hs hu
  rcases hs with rfl | rfl | rfl <;> rcases hu with rfl | rfl | rfl <;>
    rcases hm with rfl | rfl <;>
    exact ⟨⟨_, rfl, rfl, rfl⟩, ⟨_, rfl, rfl, rfl⟩, ⟨_, rfl, rfl, rfl⟩⟩

/-- Witness for C1 at the mapping with `sentiment = "positive"` and
`urgency = "high"`. -/
theorem claim_C1_witness :
    (∃ i, deserialize (Json.obj [("sentiment", Json.str "positive"), ("urgency", Json.str "high")])
        = Except.ok i ∧
      i.get "sentiment" = some (Json.str "positive") ∧ i.get "urgency" = some (Json.str "high")) ∧
    (∃ i, deserializeWithValidation
        (Json.obj [("sentiment", Json.str "positive"), ("urgency", Json.str "high")])
        = Except.ok i ∧
      i.get "sentiment" = some (Json.str "positive") ∧ i.get "urgency" = some (Json.str "high")) ∧
    (∃ i, deserializeWithZod
        (Json.obj [("sentiment", Json.str "positive"), ("urgency", Json.str "high")])
        = Except.ok i ∧
      i.get "sentiment" = some (Json.str "positive") ∧ i.get "urgency" = some (Json.str "high")) :=
  claim_C1 "positive" "high" (by decide) (by decide) _ (Or.inl rfl)

/-- C3 fails as stated: a sequence is not a mapping, yet the validator
does not raise "Input must be an object" on it — JavaScript `typeof`
of an array is "object", so `[]` passes the object guard and fails the
first field check instead, with "sentiment must be a string". -/
theorem claim_C3_counterexample :
    SentimentObjectValidator.validate (Json.arr [])
      = Except.error (JsError.error "sentiment must be a string") ∧
    SentimentObjectValidator.validate (Json.arr [])
      ≠ Except.error (JsError.error "Input must be an object") := by
  constructor
  · rfl
  · decide

/-- C3 as amended: for every input whose `typeof` is not "object"
(scalars) and for `null`, the validator raises "Input must be an
object" before checking any field; a sequence instead passes the
object guard and fails the first field check with "sentiment must be a
string". -/
theorem claim_C3 :
    (∀ j : Json, jsTypeof j ≠ "object" ∨ j = Json.null →
      SentimentObjectValidator.validate j
        = Except.error (JsError.error "Input must be an object")) ∧
    (∀ xs : List Json, SentimentObjectValidator.validate (Json.arr xs)
        = Except.error (JsError.error "sentiment must be a string")) := by
  constructor
  · intro j h
    unfold SentimentObjectValidator.validate
    rcases j with s | n | b | _ | xs | fs <;> simp_all [jsTypeof, Json.isNull]
  · intro xs
    rfl

/-- Witness for C3 (amended) at the scalar `5` and the empty sequence. -/
theorem claim_C3_witness :
    SentimentObjectValidator.validate (Json.num 5)
      = Except.error (JsError.error "Input must be an object") ∧
    SentimentObjectValidator.validate (Json.arr [])
      = Except.error (JsError.error "sentiment must be a string") :=
  ⟨claim_C3.1 (Json.num 5) (Or.inl (by decide)), claim_C3.2 []⟩

/-- C7: for every array-form input whose decoded or passed-through
value is not a sequence, both `deserializeArray` and
`deserializeArrayWithZod` raise an error with the identical message
"Input must be an array", with no per-element processing. -/
theorem claim_C7 (j v : Json) (hp : parseIfString j = Except.ok v)
    (hv : ∀ xs, v ≠ Json.arr xs) :
    deserializeArray j = Except.error (JsError.error "Input must be an array") ∧
    deserializeArrayWithZod j = Except.error (JsError.error "Input must be an array") := by
  unfold deserializeArray deserializeArrayWithZod
  rw [hp]
  rcases v with s | n | b | _ | xs | fs
  case arr => exact absurd rfl (hv xs)
  all_goals exact ⟨rfl, rfl⟩

/-- Witness for C7 at the scalar input `3`, which passes through the
parser unchanged and is not a sequence. -/
theorem claim_C7_witness :
    deserializeArray (Json.num 3) = Except.error (JsError.error "Input must be an array") ∧
    deserializeArrayWithZod (Json.num 3) = Except.error (JsError.error "Input must be an array") :=
  claim_C7 (Json.num 3) (Json.num 3) rfl (fun _ h => Json.noConfusion h)

/-- C2 fails as stated: on the hand-written-validator path the extra
fields do not pass through.  `SentimentObjectValidator.validate`
returns only the two recognized fields and `deserializeWithValidation`
assigns from that validated object, so an input carrying an extra
`confidence` field yields an instance without it. -/
theorem claim_C2_counterexample :
    deserializeWithValidation
        (Json.obj [("sentiment", Json.str "positive"), ("urgency", Json.str "high"),
          ("confidence", Json.num 3)])
      = Except.ok ⟨[("sentiment", Json.str "positive"), ("urgency", Json.str "high")]⟩ ∧
    Instance.get ⟨[("sentiment", Json.str "positive"), ("urgency", Json.str "high")]⟩ "confidence"
      = none ∧
    getProp (Json.obj [("sentiment", Json.str "positive"), ("urgency", Json.str "high"),
          ("confidence", Json.num 3)]) "confidence" = some (Json.num 3) :=
  ⟨rfl, rfl, rfl⟩

/-- C2 as amended: for every input mapping carrying the recognized
fields with in-domain values plus arbitrary additional fields, the
unchecked path (`deserialize`) passes every field of the source
mapping through, while both the hand-written-validator path
(`deserializeWithValidation`, whose validator returns only the
recognized fields) and the schema path (`deserializeWithZod`) drop the
unrecognized fields and keep exactly `sentiment` and `urgency`. -/
theorem claim_C2 (fs : List (String × Json)) (s u : String)
    (hs' : getProp (Json.obj fs) "sentiment" = some (Json.str s))
    (hs : s ∈ SentimentObjectValidator.validSentiments)
    (hu' : getProp (Json.obj fs) "urgency" = some (Json.str u))
    (hu : u ∈ SentimentObjectValidator.validUrgencies) :
    deserialize (Json.obj fs) = Except.ok ⟨fs⟩ ∧
    deserializeWithValidation (Json.obj fs)
      = Except.ok ⟨[("sentiment", Json.str s), ("urgency", Json.str u)]⟩ ∧
    deserializeWithZod (Json.obj fs)
      = Except.ok ⟨[("sentiment", Json.str s), ("urgency", Json.str u)]⟩ := by
  refine ⟨rfl, ?_, ?_⟩
  · have hp : parseIfString (Json.obj fs) = Except.ok (Json.obj fs) := rfl
    unfold deserializeWithValidation
    rw [hp]
    unfold SentimentObjectValidator.validate
    simp [jsTypeof, Json.isNull, hs', hu', hs, hu, assignFields]
  · have hp : parseIfString (Json.obj fs) = Except.ok (Json.obj fs) := rfl
    unfold deserializeWithZod
    rw [hp]
    unfold sentimentObjectSchema.parse sentimentObjectSchema.safeParse
    simp only [sentimentObjectSchema.checkEnum, hs', hu']
    have hsv : s ∈ sentimentObjectSchema.sentimentValues := hs
    have huv : u ∈ sentimentObjectSchema.urgencyValues := hu
    simp [hsv, huv, assignFields]

/-- Witness for C2 (amended) at a mapping carrying the extra field
`confidence`. -/
theorem claim_C2_witness :
    deserialize (Json.obj [("sentiment", Json.str "positive"), ("urgency", Json.str "high"),
        ("confidence", Json.num 3)])
      = Except.ok ⟨[("sentiment", Json.str "positive"), ("urgency", Json.str "high"),
        ("confidence", Json.num 3)]⟩ ∧
    deserializeWithValidation
        (Json.obj [("sentiment", Json.str "positive"), ("urgency", Json.str "high"),
          ("confidence", Json.num 3)])
      = Except.ok ⟨[("sentiment", Json.str "positive"), ("urgency", Json.str "high")]⟩ ∧
    deserializeWithZod
        (Json.obj [("sentiment", Json.str "positive"), ("urgency", Json.str "high"),
          ("confidence", Json.num 3)])
      = Except.ok ⟨[("sentiment", Json.str "positive"), ("urgency", Json.str "high")]⟩ :=
  claim_C2 [("sentiment", Json.str "positive"), ("urgency", Json.str "high"),
      ("confidence", Json.num 3)] "positive" "high" rfl (by decide) rfl (by decide)

/-- C4: on mapping inputs the hand-written validator raises exactly the
first violation, checking `sentiment` (presence/primitive type, then
domain) before `urgency` (presence/primitive type, then domain), with
the messages of the source; in particular the input with
`sentiment = "happy"` raises "sentiment must be one of: positive,
negative, neutral". -/
theorem claim_C4 :
    (∀ j : Json, jsTypeof j = "object" → j ≠ Json.null →
      ((∀ s, getProp j "sentiment" ≠ some (Json.str s)) →
        SentimentObjectValidator.validate j
          = Except.error (JsError.error "sentiment must be a string")) ∧
      (∀ s, getProp j "sentiment" = some (Json.str s) →
        s ∉ SentimentObjectValidator.validSentiments →
        SentimentObjectValidator.validate j
          = Except.error (JsError.error "sentiment must be one of: positive, negative, neutral")) ∧
      (∀ s, getProp j "sentiment" = some (Json.str s) →
        s ∈ SentimentObjectValidator.validSentiments →
        (∀ u, getProp j "urgency" ≠ some (Json.str u)) →
        SentimentObjectValidator.validate j
          = Except.error (JsError.error "urgency must be a string")) ∧
      (∀ s u, getProp j "sentiment" = some (Json.str s) →
        s ∈ SentimentObjectValidator.validSentiments →
        getProp j "urgency" = some (Json.str u) →
        u ∉ SentimentObjectValidator.validUrgencies →
        SentimentObjectValidator.validate j
          = Except.error (JsError.error "urgency must be one of: high, medium, low"))) ∧
    SentimentObjectValidator.validate
        (Json.obj [("sentiment", Json.str "happy"), ("urgency", Json.str "high")])
      = Except.error (JsError.error "sentiment must be one of: positive, negative, neutral") := by
  constructor
  · intro j hobj hnull
    have hg : (jsTypeof j != "object" || j.isNull) = false := by
      rcases j <;> simp_all [jsTypeof, Json.isNull]
    unfold SentimentObjectValidator.validate
    rw [hg]
    refine ⟨?_, ?_, ?_, ?_⟩
    · intro hmiss
      rcases hgp : getProp j "sentiment" with _ | v
      · simp [hgp]
      · rcases v with sv | nv | bv | _ | av | ov
        case str => exact absurd hgp (hmiss sv)
        all_goals simp [hgp]
    · intro s hgp hnot
      simp [hgp, hnot]
      rfl
    · intro s hgp hsmem hmiss
      rcases hgu : getProp j "urgency" with _ | v
      · simp [hgp, hsmem, hgu]
      · rcases v with uv | nv | bv | _ | av | ov
        case str => exact absurd hgu (hmiss uv)
        all_goals simp [hgp, hsmem, hgu]
    · intro s u hgp hsmem hgu hunot
      simp [hgp, hsmem, hgu, hunot]
      rfl
  · rfl

/-- Witness for C4 at the mapping `sentiment = "happy"`,
`urgency = "high"` (the sentiment-domain branch) and at the empty
mapping (the sentiment-presence branch). -/
theorem claim_C4_witness :
    SentimentObjectValidator.validate
        (Json.obj [("sentiment", Json.str "happy"), ("urgency", Json.str "high")])
      = Except.error (JsError.error "sentiment must be one of: positive, negative, neutral") ∧
    SentimentObjectValidator.validate (Json.obj [])
      = Except.error (JsError.error "sentiment must be a string") :=
  ⟨(claim_C4.1 (Json.obj [("sentiment", Json.str "happy"), ("urgency", Json.str "high")])
      rfl (fun h => Json.noConfusion h)).2.1 "happy" rfl (by decide),
   (claim_C4.1 (Json.obj []) rfl (fun h => Json.noConfusion h)).1
      (fun s h => Option.noConfusion h)⟩

/-- C5: when both recognized fields of a mapping are out of their
domains, the throwing schema path raises a single aggregate `ZodError`
carrying one violation per field — the `sentiment` issue and the
`urgency` issue, each naming its expected domain in its message — not
just the first violation. -/
theorem claim_C5 (fs : List (String × Json)) (s u : String)
    (hs' : getProp (Json.obj fs) "sentiment" = some (Json.str s))
    (hs : s ∉ sentimentObjectSchema.sentimentValues)
    (hu' : getProp (Json.obj fs) "urgency" = some (Json.str u))
    (hu : u ∉ sentimentObjectSchema.urgencyValues) :
    deserializeWithZod (Json.obj fs)
      = Except.error (JsError.zodError
          [⟨["sentiment"], sentimentObjectSchema.sentimentMessage⟩,
           ⟨["urgency"], sentimentObjectSchema.urgencyMessage⟩]) := by
  have hp : parseIfString (Json.obj fs) = Except.ok (Json.obj fs) := rfl
  unfold deserializeWithZod
  rw [hp]
  unfold sentimentObjectSchema.parse sentimentObjectSchema.safeParse
  simp [sentimentObjectSchema.checkEnum, hs', hu', hs, hu]

/-- Witness for C5 at the mapping `sentiment = "happy"`,
`urgency = "hot"`. -/
theorem claim_C5_witness :
    deserializeWithZod (Json.obj [("sentiment", Json.str "happy"), ("urgency", Json.str "hot")])
      = Except.error (JsError.zodError
          [⟨["sentiment"], sentimentObjectSchema.sentimentMessage⟩,
           ⟨["urgency"], sentimentObjectSchema.urgencyMessage⟩]) :=
  claim_C5 [("sentiment", Json.str "happy"), ("urgency", Json.str "hot")] "happy" "hot"
    rfl (by decide) rfl (by decide)


/-- Computation lemma: when the parse step of `deserializeWithZodSafe`
succeeds, the call reduces to the outcome of `safeParse`. -/
theorem deserializeWithZodSafe_of_parsed (j v : Json) (h : parseIfString j = Except.ok v) :
    deserializeWithZodSafe j
      = (match sentimentObjectSchema.safeParse v with
         | .error issues => Except.ok (SafeResult.failure issues)
         | .ok data => Except.ok (SafeResult.success ⟨assignFields data⟩)) := by
  unfold deserializeWithZodSafe
  rw [h]

/-- Computation lemma: a string input whose text `JSON.parse` rejects
makes `parseIfString` fail with the corresponding `SyntaxError`. -/
theorem parseIfString_str_error (s e : String) (h : jsonParse s = Except.error e) :
    parseIfString (Json.str s) = Except.error (JsError.parseError ("SyntaxError: " ++ e)) := by
  simp only [parseIfString]
  rw [h]

/-- C6: `deserializeWithZodSafe` never raises for a validation
failure — whenever the input is not a malformed JSON string it returns
a discriminated outcome, and a schema failure comes back as the
`success = false` outcome carrying the aggregate issues — while every
string input that `JSON.parse` rejects raises an error whose message
extends the prefix "Failed to parse JSON", never a data outcome. -/
theorem claim_C6 :
    (∀ j v, parseIfString j = Except.ok v →
      ∃ r, deserializeWithZodSafe j = Except.ok r) ∧
    (∀ j v issues, parseIfString j = Except.ok v →
      sentimentObjectSchema.safeParse v = Except.error issues →
      deserializeWithZodSafe j = Except.ok (SafeResult.failure issues)) ∧
    (∀ s e, jsonParse s = Except.error e →
      deserializeWithZodSafe (Json.str s)
        = Except.error (JsError.error ("Failed to parse JSON" ++ (": SyntaxError: " ++ e)))) := by
  refine ⟨?_, ?_, ?_⟩
  · intro j v h
    rw [deserializeWithZodSafe_of_parsed j v h]
    cases hz : sentimentObjectSchema.safeParse v with
    | ok data => exact ⟨_, rfl⟩
    | error issues => exact ⟨_, rfl⟩
  · intro j v issues h hz
    rw [deserializeWithZodSafe_of_parsed j v h, hz]
  · intro s e h
    unfold deserializeWithZodSafe
    rw [parseIfString_str_error s e h]
    simp only [JsError.display]
    rw [show ("Failed to parse JSON: " : String) = "Failed to parse JSON" ++ ": " from rfl,
      String.append_assoc]
    rw [show (": SyntaxError: " : String) = ": " ++ "SyntaxError: " from rfl,
      String.append_assoc]

/-- Witness for C6: a mapping with an out-of-domain field comes back
as a `success = false` data outcome, and the malformed JSON text
`"\x7binvalid json\x7d"` raises with the "Failed to parse JSON"
prefix. -/
theorem claim_C6_witness :
    deserializeWithZodSafe (Json.obj [("sentiment", Json.str "happy")])
      = Except.ok (SafeResult.failure
          [⟨["sentiment"], sentimentObjectSchema.sentimentMessage⟩,
           ⟨["urgency"], sentimentObjectSchema.urgencyMessage⟩]) ∧
    deserializeWithZodSafe (Json.str "\x7binvalid json\x7d")
      = Except.error (JsError.error ("Failed to parse JSON"
          ++ (": SyntaxError: " ++ "Expected string key in JSON object"))) :=
  ⟨claim_C6.2.1 (Json.obj [("sentiment", Json.str "happy")])
      (Json.obj [("sentiment", Json.str "happy")])
      [⟨["sentiment"], sentimentObjectSchema.sentimentMessage⟩,
       ⟨["urgency"], sentimentObjectSchema.urgencyMessage⟩] rfl rfl,
   claim_C6.2.2 "\x7binvalid json\x7d" "Expected string key in JSON object" rfl⟩

/-- Computation lemma: when the parse step of
`deserializeWithValidation` succeeds, the call reduces to the outcome
of the validator. -/
theorem deserializeWithValidation_of_parsed (j v : Json) (h : parseIfString j = Except.ok v) :
    deserializeWithValidation j
      = (match SentimentObjectValidator.validate v with
         | .error e => Except.error e
         | .ok validated => Except.ok (⟨assignFields validated⟩ : Instance)) := by
  unfold deserializeWithValidation
  rw [h]

/-- C10: every successful result of `SentimentObjectValidator.validate`
is the two-field object with `sentiment` in {positive, negative,
neutral} and `urgency` in {high, medium, low}; consequently every
instance `deserializeWithValidation` returns has in-domain field
values. -/
theorem claim_C10 :
    (∀ j r, SentimentObjectValidator.validate j = Except.ok r →
      ∃ s u, r = Json.obj [("sentiment", Json.str s), ("urgency", Json.str u)] ∧
        s ∈ SentimentObjectValidator.validSentiments ∧
        u ∈ SentimentObjectValidator.validUrgencies) ∧
    (∀ j i, deserializeWithValidation j = Except.ok i →
      ∃ s u, i.get "sentiment" = some (Json.str s) ∧ i.get "urgency" = some (Json.str u) ∧
        s ∈ SentimentObjectValidator.validSentiments ∧
        u ∈ SentimentObjectValidator.validUrgencies) := by
  have hval : ∀ j r, SentimentObjectValidator.validate j = Except.ok r →
      ∃ s u, r = Json.obj [("sentiment", Json.str s), ("urgency", Json.str u)] ∧
        s ∈ SentimentObjectValidator.validSentiments ∧
        u ∈ SentimentObjectValidator.validUrgencies := by
    intro j r h
    unfold SentimentObjectValidator.validate at h
    split at h
    · simp at h
    split at h
    · rename_i sv hgp
      split at h
      · simp at h
      · rename_i hsc
        split at h
        · rename_i uv hgu
          split at h
          · simp at h
          · rename_i huc
            simp only [Except.ok.injEq] at h
            refine ⟨sv, uv, h.symm, ?_, ?_⟩
            · simpa using hsc
            · simpa using huc
        · simp at h
    · simp at h
  refine ⟨hval, ?_⟩
  intro j i h
  cases hp : parseIfString j with
  | error e =>
      have hd : deserializeWithValidation j = Except.error e := by
        unfold deserializeWithValidation
        rw [hp]
      rw [hd] at h
      simp at h
  | ok obj =>
      rw [deserializeWithValidation_of_parsed j obj hp] at h
      cases hv : SentimentObjectValidator.validate obj with
      | error e => rw [hv] at h; simp at h
      | ok validated =>
          rw [hv] at h
          simp only [Except.ok.injEq] at h
          obtain ⟨s, u, hr, hs, hu⟩ := hval obj validated hv
          refine ⟨s, u, ?_, ?_, hs, hu⟩
          · rw [← h, hr]
            rfl
          · rw [← h, hr]
            rfl

/-- Witness for C10 at the mapping with `sentiment = "negative"` and
`urgency = "medium"`. -/
theorem claim_C10_witness :
    ∃ s u, Instance.get ⟨[("sentiment", Json.str "negative"), ("urgency", Json.str "medium")]⟩
        "sentiment" = some (Json.str s) ∧
      Instance.get ⟨[("sentiment", Json.str "negative"), ("urgency", Json.str "medium")]⟩
        "urgency" = some (Json.str u) ∧
      s ∈ SentimentObjectValidator.validSentiments ∧
      u ∈ SentimentObjectValidator.validUrgencies :=
  claim_C10.2 (Json.obj [("sentiment", Json.str "negative"), ("urgency", Json.str "medium")])
    ⟨[("sentiment", Json.str "negative"), ("urgency", Json.str "medium")]⟩ rfl

/-- Helper: a monadic map over `Except` succeeds elementwise, with the
output list in input order. -/
theorem mapM_ok_of_forall {α β : Type} (f : α → Except JsError β) (xs : List α)
    (h : ∀ x ∈ xs, ∃ y, f x = Except.ok y) :
    ∃ l, xs.mapM f = Except.ok l ∧ l.length = xs.length ∧
      List.Forall₂ (fun x y => f x = Except.ok y) xs l := by
  induction xs with
  | nil => exact ⟨[], rfl, rfl, List.Forall₂.nil⟩
  | cons x xs ih =>
      obtain ⟨y, hy⟩ := h x (List.mem_cons_self x xs)
      obtain ⟨l, hl, hlen, hfa⟩ := ih (fun a ha => h a (List.mem_cons_of_mem x ha))
      refine ⟨y :: l, ?_, by simp [hlen], List.Forall₂.cons hy hfa⟩
      rw [List.mapM_cons, hy, hl]
      rfl

/-- Helper: the schema path succeeds on any object whose recognized
fields are in-domain strings, returning exactly the two declared
fields. -/
theorem deserializeWithZod_ok_of_fields (fs : List (String × Json)) (s u : String)
    (hs' : getProp (Json.obj fs) "sentiment" = some (Json.str s))
    (hs : s ∈ sentimentObjectSchema.sentimentValues)
    (hu' : getProp (Json.obj fs) "urgency" = some (Json.str u))
    (hu : u ∈ sentimentObjectSchema.urgencyValues) :
    deserializeWithZod (Json.obj fs)
      = Except.ok ⟨[("sentiment", Json.str s), ("urgency", Json.str u)]⟩ := by
  have hp : parseIfString (Json.obj fs) = Except.ok (Json.obj fs) := rfl
  unfold deserializeWithZod
  rw [hp]
  unfold sentimentObjectSchema.parse sentimentObjectSchema.safeParse
  simp [sentimentObjectSchema.checkEnum, hs', hu', hs, hu, assignFields]

/-- C8: for every sequence of valid mappings (any length, including
zero), each array form returns a sequence of the same length whose
elements are, in input order, the single-object results of the
corresponding input elements. -/
theorem claim_C8 (ms : List Json) (h : ∀ m ∈ ms, validMapping m) :
    (∃ l, deserializeArray (Json.arr ms) = Except.ok l ∧ l.length = ms.length ∧
      List.Forall₂ (fun m i => deserialize m = Except.ok i) ms l) ∧
    (∃ l, deserializeArrayWithZod (Json.arr ms) = Except.ok l ∧ l.length = ms.length ∧
      List.Forall₂ (fun m i => deserializeWithZod m = Except.ok i) ms l) ∧
    deserializeArray (Json.arr []) = Except.ok [] ∧
    deserializeArrayWithZod (Json.arr []) = Except.ok [] := by
  have h1 : ∀ m ∈ ms, ∃ i, deserialize m = Except.ok i := by
    intro m hm
    obtain ⟨s, u, hs, hu, hm' | hm'⟩ := h m hm <;> subst hm' <;> exact ⟨_, rfl⟩
  have h2 : ∀ m ∈ ms, ∃ i, deserializeWithZod m = Except.ok i := by
    intro m hm
    obtain ⟨s, u, hs, hu, hm' | hm'⟩ := h m hm <;> subst hm'
    · exact ⟨_, deserializeWithZod_ok_of_fields _ s u rfl hs rfl hu⟩
    · exact ⟨_, deserializeWithZod_ok_of_fields _ s u rfl hs rfl hu⟩
  obtain ⟨l1, hl1, hlen1, hfa1⟩ := mapM_ok_of_forall deserialize ms h1
  obtain ⟨l2, hl2, hlen2, hfa2⟩ := mapM_ok_of_forall deserializeWithZod ms h2
  exact ⟨⟨l1, hl1, hlen1, hfa1⟩, ⟨l2, hl2, hlen2, hfa2⟩, rfl, rfl⟩

/-- Witness for C8 at a two-element sequence of valid mappings. -/
theorem claim_C8_witness :
    (∃ l, deserializeArray (Json.arr
        [Json.obj [("sentiment", Json.str "positive"), ("urgency", Json.str "high")],
         Json.obj [("sentiment", Json.str "neutral"), ("urgency", Json.str "low")]])
        = Except.ok l ∧
      l.length = [Json.obj [("sentiment", Json.str "positive"), ("urgency", Json.str "high")],
         Json.obj [("sentiment", Json.str "neutral"), ("urgency", Json.str "low")]].length ∧
      List.Forall₂ (fun m i => deserialize m = Except.ok i)
        [Json.obj [("sentiment", Json.str "positive"), ("urgency", Json.str "high")],
         Json.obj [("sentiment", Json.str "neutral"), ("urgency", Json.str "low")]] l) ∧
    (∃ l, deserializeArrayWithZod (Json.arr
        [Json.obj [("sentiment", Json.str "positive"), ("urgency", Json.str "high")],
         Json.obj [("sentiment", Json.str "neutral"), ("urgency", Json.str "low")]])
        = Except.ok l ∧
      l.length = [Json.obj [("sentiment", Json.str "positive"), ("urgency", Json.str "high")],
         Json.obj [("sentiment", Json.str "neutral"), ("urgency", Json.str "low")]].length ∧
      List.Forall₂ (fun m i => deserializeWithZod m = Except.ok i)
        [Json.obj [("sentiment", Json.str "positive"), ("urgency", Json.str "high")],
         Json.obj [("sentiment", Json.str "neutral"), ("urgency", Json.str "low")]] l) ∧
    deserializeArray (Json.arr []) = Except.ok [] ∧
    deserializeArrayWithZod (Json.arr []) = Except.ok [] :=
  claim_C8
    [Json.obj [("sentiment", Json.str "positive"), ("urgency", Json.str "high")],
     Json.obj [("sentiment", Json.str "neutral"), ("urgency", Json.str "low")]]
    (by
      intro m hm
      simp only [List.mem_cons, List.not_mem_nil, or_false] at hm
      rcases hm with rfl | rfl
      · exact ⟨"positive", "high", by decide, by decide, Or.inl rfl⟩
      · exact ⟨"neutral", "low", by decide, by decide, Or.inl rfl⟩)

/-- C9: for every valid mapping, deserializing its JSON-text encoding
produces the same result as deserializing the already-parsed mapping,
for each single-object strategy. -/
theorem claim_C9 (m : Json) (h : validMapping m) :
    deserialize (Json.str (jsonEncode m)) = deserialize m ∧
    deserializeWithValidation (Json.str (jsonEncode m)) = deserializeWithValidation m ∧
    deserializeWithZod (Json.str (jsonEncode m)) = deserializeWithZod m := by
  obtain ⟨s, u, hs, hu, hm | hm⟩ := h <;> subst hm <;>
    simp only [sentimentObjectSchema.sentimentValues, sentimentObjectSchema.urgencyValues,
      List.mem_cons, List.not_mem_nil, or_false] at hs hu <;>
    rcases hs with rfl | rfl | rfl <;> rcases hu with rfl | rfl | rfl <;>
    exact ⟨rfl, rfl, rfl⟩

/-- Witness for C9 at the mapping with `sentiment = "positive"` and
`urgency = "high"`. -/
theorem claim_C9_witness :
    deserialize (Json.str (jsonEncode
        (Json.obj [("sentiment", Json.str "positive"), ("urgency", Json.str "high")])))
      = deserialize (Json.obj [("sentiment", Json.str "positive"), ("urgency", Json.str "high")]) ∧
    deserializeWithValidation (Json.str (jsonEncode
        (Json.obj [("sentiment", Json.str "positive"), ("urgency", Json.str "high")])))
      = deserializeWithValidation
          (Json.obj [("sentiment", Json.str "positive"), ("urgency", Json.str "high")]) ∧
    deserializeWithZod (Json.str (jsonEncode
        (Json.obj [("sentiment", Json.str "positive"), ("urgency", Json.str "high")])))
      = deserializeWithZod
          (Json.obj [("sentiment", Json.str "positive"), ("urgency", Json.str "high")]) :=
  claim_C9 (Json.obj [("sentiment", Json.str "positive"), ("urgency", Json.str "high")])
    ⟨"positive", "high", by decide, by decide, Or.inl rfl⟩
